import Mathlib

/-!
Verification of the per-user OAuth token lifecycle of the AgentCore Slack
bot, shallowly embedded from the Python sources:

* `auth_portal/src/auth_portal.py` — hand-off JWT codec (`create_jwt`,
  `validate_jwt`), the dashboard / callback / revoke handlers and the
  top-level `lambda_handler`;
* `worker/src/worker_oauth.py` — agent-side token store helpers;
* `worker/src/worker_atlassian_rest_tools.py` — refresh-token rotation;
* `worker/src/worker_agent.py` — per-user tool registration.

Python strings are modelled as `List Char`, `bytes` as `List Nat`, and the
DynamoDB table as an association list.  External primitives (HMAC-SHA256,
`json.dumps`/`json.loads` on the claim maps, KMS encrypt/decrypt, the
provider HTTP endpoints) are parameters of the embedded functions; the
base64 codecs of the standard library are implemented concretely, following
CPython's lenient `binascii.a2b_base64` semantics.
-/

/-- Python strings are modelled as lists of characters. -/
abbrev Str := List Char

/-- Python `bytes` are modelled as lists of naturals (each `< 256` where it
matters for decoding). -/
abbrev Bytes := List Nat

/-- `str.encode()` for the ASCII strings this development feeds to it
(base64 alphabet plus `.`), where UTF-8 is the identity on code points. -/
def strBytes (s : Str) : Bytes := s.map Char.toNat

/-- The urlsafe base64 alphabet (RFC 4648 section 5), as used by
`base64.urlsafe_b64encode` / `urlsafe_b64decode`. -/
def b64Table : Str :=
  "ABCDEFGHIJKLMNOPQRSTUVWXYZabcdefghijklmnopqrstuvwxyz0123456789-_".data

/-- The standard base64 alphabet, used by `base64.b64decode` for the
base64-transport-encoded request body of the revoke handler. -/
def b64TableStd : Str :=
  "ABCDEFGHIJKLMNOPQRSTUVWXYZabcdefghijklmnopqrstuvwxyz0123456789+/".data

/-- The character for a 6-bit group. -/
def b64Char (n : Nat) : Char := b64Table.getD n '?'

def b64IndexAux (c : Char) : Str → Nat → Option Nat
  | [], _ => none
  | d :: rest, i => if d = c then some i else b64IndexAux c rest (i + 1)

/-- Index of a character in the urlsafe alphabet (`none` for foreign
characters, which CPython's lenient decoder discards). -/
def b64Index? (c : Char) : Option Nat := b64IndexAux c b64Table 0

/-- Index in the standard alphabet. -/
def b64IndexStd? (c : Char) : Option Nat := b64IndexAux c b64TableStd 0

/-- The data characters of the base64 encoding of a byte string. -/
def b64EncodeBody : Bytes → Str
  | [] => []
  | [b0] => [b64Char (b0 / 4), b64Char (b0 % 4 * 16)]
  | [b0, b1] =>
      [b64Char (b0 / 4), b64Char (b0 % 4 * 16 + b1 / 16), b64Char (b1 % 16 * 4)]
  | b0 :: b1 :: b2 :: rest =>
      b64Char (b0 / 4) :: b64Char (b0 % 4 * 16 + b1 / 16) ::
        b64Char (b1 % 16 * 4 + b2 / 64) :: b64Char (b2 % 64) :: b64EncodeBody rest

/-- Number of `=` padding characters appended by `base64.urlsafe_b64encode`. -/
def b64PadCount : Bytes → Nat
  | [] => 0
  | [_] => 2
  | [_, _] => 1
  | _ :: _ :: _ :: rest => b64PadCount rest

/-- `base64.urlsafe_b64encode`: data characters followed by `=` padding. -/
def urlsafeB64encode (bs : Bytes) : Str :=
  b64EncodeBody bs ++ List.replicate (b64PadCount bs) '='

/-- Python `s.rstrip("=")`. -/
def rstripEq (s : Str) : Str := (s.reverse.dropWhile (fun c => c = '=')).reverse

/-- CPython `binascii.a2b_base64` in lenient (non-strict) mode,
parametrised by the alphabet.  Foreign characters are discarded.  A `=`
arriving after zero or one data characters of the current group is
discarded without touching the pad count.  A `=` after three data
characters completes the pad sequence and ends the decode, emitting the
two bytes of the partial group.  A `=` after two data characters is
provisional: the first one only bumps the pad count (`pads`) and
scanning continues; a second `=` (with foreign characters in between
ignored) completes the sequence, ends the decode and emits the one byte
of the partial group, while a data character resets the pad count and
continues the group.  Input that ends with a non-empty partial group is
an `Incorrect padding` error (`none`). -/
def a2bLoop (idx : Char → Option Nat) :
    Str → List Nat → Nat → Bytes → Option Bytes
  | [], quad, _, acc =>
      match quad with
      | [] => some acc
      | _ => none
  | c :: rest, quad, pads, acc =>
      if c = '=' then
        match quad with
        | [a, b] =>
            if pads = 0 then a2bLoop idx rest [a, b] 1 acc
            else some (acc ++ [a * 4 + b / 16])
        | [a, b, d] => some (acc ++ [a * 4 + b / 16, b % 16 * 16 + d / 4])
        | _ => a2bLoop idx rest quad pads acc
      else
        match idx c with
        | none => a2bLoop idx rest quad pads acc
        | some v =>
          match quad with
          | [a, b, d] =>
              a2bLoop idx rest [] 0
                (acc ++ [a * 4 + b / 16, b % 16 * 16 + d / 4, d % 4 * 64 + v])
          | q => a2bLoop idx rest (q ++ [v]) 0 acc

/-- `base64.urlsafe_b64decode`. -/
def urlsafeB64decode? (s : Str) : Option Bytes := a2bLoop b64Index? s [] 0 []

/-- `base64.b64decode` (standard alphabet). -/
def stdB64decode? (s : Str) : Option Bytes := a2bLoop b64IndexStd? s [] 0 []

/-- The payload decode step of `validate_jwt`:
`base64.urlsafe_b64decode(p + "=" * (4 - len(p) % 4))`. -/
def decodeRepadded? (p : Str) : Option Bytes :=
  urlsafeB64decode? (p ++ List.replicate (4 - p.length % 4) '=')

def splitOnDotAux : Str → Str → List Str
  | [], cur => [cur.reverse]
  | c :: rest, cur =>
      if c = '.' then cur.reverse :: splitOnDotAux rest []
      else splitOnDotAux rest (c :: cur)

/-- Python `token.split(".")`. -/
def splitOnDot (s : Str) : List Str := splitOnDotAux s []

/-- The hand-off token claim maps this system passes to `json.dumps` and
receives from `json.loads`: a subject user id, an optional display name and
an expiry.  `none` models an absent key. -/
structure Claims where
  slack_user_id : Option Str := none
  display_name : Option Str := none
  exp : Option Int := none
deriving Repr, DecidableEq

/-- `json.dumps({"alg": "HS256", "typ": "JWT"}, separators=(",", ":"))`,
the portal's JWT header. -/
def headerJsonCompact : Str := "\x7b\"alg\":\"HS256\",\"typ\":\"JWT\"\x7d".data

/-- `json.dumps({"alg": "HS256", "typ": "JWT"})` with default separators,
the worker's JWT header in `generate_portal_url`. -/
def headerJsonDefault : Str := "\x7b\"alg\": \"HS256\", \"typ\": \"JWT\"\x7d".data

/-- The common JWT construction shared verbatim by the portal's
`create_jwt` and the worker's inline JWT in `generate_portal_url`:
base64url-encode the header and the serialized claims without padding,
HMAC-SHA256 the dot-joined pair, and join all three parts with dots.
`hmac` models `hmac.new(secret, msg, hashlib.sha256).digest()` and
`dumpsF` the JSON serialization of the claims map. -/
def mkJwt (hmac : Bytes → Bytes → Bytes) (dumpsF : Claims → Bytes)
    (headerJson : Str) (secret : Bytes) (payload : Claims) : Str :=
  let header_b64 := rstripEq (urlsafeB64encode (strBytes headerJson))
  let payload_b64 := rstripEq (urlsafeB64encode (dumpsF payload))
  let message := header_b64 ++ '.' :: payload_b64
  let signature := hmac secret (strBytes message)
  let signature_b64 := rstripEq (urlsafeB64encode signature)
  header_b64 ++ '.' :: (payload_b64 ++ '.' :: signature_b64)

/-- `auth_portal.create_jwt`: compact-separator JSON, shared signing
secret.  The caller supplies the full claims map (including `exp`). -/
def create_jwt (hmac : Bytes → Bytes → Bytes) (dumps : Claims → Bytes)
    (secret : Bytes) (payload : Claims) : Str :=
  mkJwt hmac dumps headerJsonCompact secret payload

/-- The error cases of `auth_portal.validate_jwt` (each a distinct
`ValueError` message in the source). -/
inductive JwtError
  /-- "Invalid JWT format" — not exactly three dot-separated parts. -/
  | invalidFormat
  /-- "Invalid JWT signature". -/
  | invalidSignature
  /-- base64 decode (`binascii.Error`, a `ValueError`) or
  `json.JSONDecodeError` on the payload. -/
  | malformedPayload
  /-- "JWT missing expiration". -/
  | missingExpiration
  /-- "JWT token expired". -/
  | expired
deriving Repr, DecidableEq

/-- `auth_portal.validate_jwt`: split on `.`, recompute the HMAC-SHA256
signature over the first two parts and compare both signatures with the
padding stripped (`hmac.compare_digest` on equal-typed strings is string
equality), re-pad and decode the payload, parse it, and check `exp`
against the current time. -/
def validate_jwt (hmac : Bytes → Bytes → Bytes) (loads : Bytes → Option Claims)
    (secret : Bytes) (now : Int) (token : Str) : Except JwtError Claims :=
  match splitOnDot token with
  | [header_b64, payload_b64, signature_b64] =>
    let message := header_b64 ++ '.' :: payload_b64
    let expected_signature :=
      rstripEq (urlsafeB64encode (hmac secret (strBytes message)))
    let provided_signature := rstripEq signature_b64
    if expected_signature = provided_signature then
      match decodeRepadded? payload_b64 with
      | none => .error .malformedPayload
      | some payloadBytes =>
        match loads payloadBytes with
        | none => .error .malformedPayload
        | some payload =>
          match payload.exp with
          | none => .error .missingExpiration
          | some exp => if now > exp then .error .expired else .ok payload
    else .error .invalidSignature
  | _ => .error .invalidFormat

/-- The claims map built inline by `worker_oauth.generate_portal_url`:
`slack_user_id`, a 10-minute expiry, and `display_name` only when the
supplied value is truthy (present and non-empty). -/
def workerClaims (uid : Str) (dn : Option Str) (now : Int) : Claims :=
  { slack_user_id := some uid
    display_name :=
      match dn with
      | some d => if d = [] then none else some d
      | none => none
    exp := some (now + 600) }

/-- The JWT minted inline by `worker_oauth.generate_portal_url`, which
uses default-separator `json.dumps` for header and payload but is
otherwise the same construction as the portal's `create_jwt`. -/
def worker_portal_jwt (hmac : Bytes → Bytes → Bytes) (dumpsW : Claims → Bytes)
    (secret : Bytes) (uid : Str) (dn : Option Str) (now : Int) : Str :=
  mkJwt hmac dumpsW headerJsonDefault secret (workerClaims uid dn now)

/-- `worker_oauth.generate_portal_url`: `None` when `AUTH_PORTAL_URL` is
unset, else the portal URL with the fresh JWT as `?token=` parameter. -/
def generate_portal_url (hmac : Bytes → Bytes → Bytes) (dumpsW : Claims → Bytes)
    (secret : Bytes) (portalUrl : Str) (uid : Str) (dn : Option Str)
    (now : Int) : Option Str :=
  if portalUrl = [] then none
  else some (portalUrl ++ ("?token=".data ++ worker_portal_jwt hmac dumpsW secret uid dn now))

/-! ## DynamoDB store model -/

/-- A DynamoDB item, restricted to the attributes this system reads and
writes; `none` models an absent attribute. -/
structure Item where
  pk : Str := []
  provider : Option Str := none
  encrypted_refresh_token : Option Str := none
  encrypted_access_token : Option Str := none
  token_expires_at : Option Int := none
  cloud_id : Option Str := none
  slack_user_id : Option Str := none
  status : Option Str := none
  created_at : Option Int := none
  updated_at : Option Int := none
  ttl : Option Int := none
deriving Repr, DecidableEq

/-- The shared DynamoDB table (token records, nonces, portal markers),
keyed by `pk`. -/
abbrev Store := List (Str × Item)

/-- `get_item`. -/
def sget : Store → Str → Option Item
  | [], _ => none
  | (k, v) :: rest, pk => if k = pk then some v else sget rest pk

/-- `put_item` (unconditional overwrite). -/
def sput : Store → Str → Item → Store
  | [], pk, it => [(pk, it)]
  | (k, v) :: rest, pk, it =>
      if k = pk then (pk, it) :: rest else (k, v) :: sput rest pk it

/-- `delete_item`. -/
def sdelete : Store → Str → Store
  | [], _ => []
  | (k, v) :: rest, pk =>
      if k = pk then sdelete rest pk else (k, v) :: sdelete rest pk

/-- `update_item` with
`SET encrypted_refresh_token = :t, updated_at = :u`
(creating the item when absent, as DynamoDB does). -/
def supdateRefresh (store : Store) (pk : Str) (enc : Str) (now : Int) : Store :=
  match sget store pk with
  | some it =>
      sput store pk
        { it with encrypted_refresh_token := some enc, updated_at := some now }
  | none =>
      sput store pk
        { pk := pk, encrypted_refresh_token := some enc, updated_at := some now }

/-- `update_item` with
`SET encrypted_refresh_token = :t, updated_at = :u, token_expires_at = :e`. -/
def supdateRefresh3 (store : Store) (pk : Str) (enc : Str) (now : Int)
    (expiresAt : Int) : Store :=
  match sget store pk with
  | some it =>
      sput store pk
        { it with encrypted_refresh_token := some enc, updated_at := some now,
                  token_expires_at := some expiresAt }
  | none =>
      sput store pk
        { pk := pk, encrypted_refresh_token := some enc, updated_at := some now,
          token_expires_at := some expiresAt }

/-! ## Agent-side token consumer (worker) -/

/-- An entry of the Atlassian accessible-resources response. -/
structure Resource where
  id : Str
  name : Option Str := none
  scopes : Option (List Str) := none
deriving Repr, DecidableEq

/-- Outcome-level model of the worker's external collaborators: the
configuration, KMS encrypt/decrypt, the Atlassian token endpoint
(refresh grant: access token plus optional rotated refresh token),
the accessible-resources endpoint, DynamoDB failure injection
(`fail…` tells whether the corresponding boto3 call raises), and the
clock. -/
structure WorkerEnv where
  oauthTableName : Str := "tbl".data
  kmsConfigured : Bool := true
  encryptW : Str → Except Str Str := fun s => .ok s
  decryptW : Str → Except Str Str := fun s => .ok s
  exchangeW : Str → Except Str (Str × Option Str) := fun _ => .error []
  resourcesW : Str → Except Str (List Resource) := fun _ => .ok []
  failGetW : Str → Bool := fun _ => false
  failUpdateW : Str → Bool := fun _ => false
  failDeleteW : Str → Bool := fun _ => false
  nowW : Int := 0

/-- The token-record key `user#<uid>#<provider>`. -/
def userPk (uid provider : Str) : Str :=
  "user#".data ++ uid ++ "#".data ++ provider

/-- The CSRF-nonce key `nonce#<nonce>`. -/
def noncePkOf (nonce : Str) : Str := "nonce#".data ++ nonce

/-- The portal-session-marker key `portal#<uid>`. -/
def portalPkOf (uid : Str) : Str := "portal#".data ++ uid

/-- `worker_oauth.lookup_user_token`: decrypt and return the stored
refresh token; `None` when the table is unconfigured, the record or the
ciphertext attribute is absent or empty, or any store/KMS call raises
(the bare `except Exception` in the source). -/
def lookup_user_token (env : WorkerEnv) (store : Store) (uid provider : Str) :
    Option Str :=
  if env.oauthTableName = [] then none
  else if env.failGetW (userPk uid provider) then none
  else
    match sget store (userPk uid provider) with
    | none => none
    | some item =>
      match item.encrypted_refresh_token with
      | none => none
      | some enc =>
        if enc = [] then none
        else
          match env.decryptW enc with
          | .error _ => none
          | .ok pt => some pt

/-- `worker_oauth.update_user_refresh_token`. -/
def update_user_refresh_token (env : WorkerEnv) (store : Store)
    (uid nrt provider : Str) : Bool × Store :=
  if env.oauthTableName = [] ∨ env.kmsConfigured = false then (false, store)
  else
    match env.encryptW nrt with
    | .error _ => (false, store)
    | .ok enc =>
      if env.failUpdateW (userPk uid provider) then (false, store)
      else (true, supdateRefresh store (userPk uid provider) enc env.nowW)

/-- `worker_oauth.delete_user_token`. -/
def delete_user_token (env : WorkerEnv) (store : Store) (uid provider : Str) :
    Store :=
  if env.oauthTableName = [] then store
  else if env.failDeleteW (userPk uid provider) then store
  else sdelete store (userPk uid provider)

/-- `worker_oauth.check_and_cleanup_auth_prompt`: read-and-delete of the
portal completion marker. -/
def check_and_cleanup_auth_prompt (env : WorkerEnv) (store : Store) (uid : Str) :
    Bool × Store :=
  if env.oauthTableName = [] then (false, store)
  else if env.failGetW (portalPkOf uid) then (false, store)
  else
    match sget store (portalPkOf uid) with
    | none => (false, store)
    | some item =>
      if item.status = some "completed".data then
        if env.failDeleteW (portalPkOf uid) then (false, store)
        else (true, sdelete store (portalPkOf uid))
      else (false, store)

/-- Provider-visible and store-visible actions of
`build_atlassian_rest_tools`, in call order. -/
inductive WorkerAction
  /-- the refresh-token grant at the Atlassian token endpoint. -/
  | tokenExchange (refreshToken : Str)
  /-- the DynamoDB write persisting the rotated refresh token. -/
  | persistRotated (newToken : Str)
  /-- the accessible-resources query. -/
  | accessibleResources
deriving Repr, DecidableEq

/-- `worker_atlassian_rest_tools.REQUIRED_SCOPES`. -/
def REQUIRED_SCOPES : List Str :=
  ["read:jira-work".data, "write:jira-work".data, "read:jira-user".data,
   "write:page:confluence".data, "read:space:confluence".data,
   "read:servicedesk-request".data, "write:servicedesk-request".data]

/-- What the Atlassian write tools close over once built. -/
structure AtlassianToolCtx where
  access_token : Str
  cloud_id : Str
deriving Repr, DecidableEq

/-- The token-handling prefix of
`worker_atlassian_rest_tools.build_atlassian_rest_tools` (everything up
to the construction of the tool closures): exchange the refresh token
(rotation), persist a returned new refresh token when a user id was
supplied, then query accessible resources and validate scopes.  Returns
the outcome, the store after the run, and the ordered list of actions.
Disclosed simplification: the source's truthiness guard
`if new_refresh_token and slack_user_id` is modelled as presence of the
two optional values; the corner where a provider returns the empty
string as the rotated token (or the caller passes an empty user id), in
which Python would skip the write, is not distinguished here. -/
def build_atlassian_rest_tools (env : WorkerEnv) (store : Store)
    (refresh_token : Str) (slack_user_id : Option Str) :
    Except Str AtlassianToolCtx × Store × List WorkerAction :=
  match env.exchangeW refresh_token with
  | .error msg => (.error msg, store, [.tokenExchange refresh_token])
  | .ok (access_token, new_refresh_token) =>
    let stTr : Store × List WorkerAction :=
      match new_refresh_token, slack_user_id with
      | some nrt, some uid =>
          ((update_user_refresh_token env store uid nrt "atlassian".data).2,
           [WorkerAction.tokenExchange refresh_token, .persistRotated nrt])
      | _, _ => (store, [WorkerAction.tokenExchange refresh_token])
    let store1 := stTr.1
    let tr1 := stTr.2 ++ [WorkerAction.accessibleResources]
    match env.resourcesW access_token with
    | .error msg => (.error msg, store1, tr1)
    | .ok [] =>
        (.error "No accessible Atlassian cloud sites found for this user".data,
         store1, tr1)
    | .ok (r :: rest) =>
      let resources := r :: rest
      if resources.any (fun x => x.scopes.isSome) then
        let token_scopes := resources.foldl (fun acc x => acc ++ x.scopes.getD []) []
        let missing := REQUIRED_SCOPES.filter (fun s => ¬ token_scopes.contains s)
        if missing = [] then
          (.ok { access_token := access_token, cloud_id := r.id }, store1, tr1)
        else
          (.error ("Token is missing required scopes: ".data ++
              List.intercalate ", ".data missing ++
              ". User must re-authorize to grant updated permissions.".data),
           store1, tr1)
      else (.ok { access_token := access_token, cloud_id := r.id }, store1, tr1)

/-- The tools the per-user Atlassian block of `worker_agent.configure_tools`
can register. -/
inductive AtlTool
  /-- the bundle of per-user REST write tools. -/
  | writeTools (ctx : AtlassianToolCtx)
  /-- the `request_atlassian_authorization` tool. -/
  | authTool
deriving Repr, DecidableEq

/-- Python `str.lower()`. -/
def toLowerStr (s : Str) : Str := s.map Char.toLower

def leadsWith : Str → Str → Bool
  | [], _ => true
  | _ :: _, [] => false
  | a :: x, b :: y => a = b && leadsWith x y

/-- Python `needle in hay` on strings. -/
def containsSub (needle : Str) : Str → Bool
  | [] => needle.isEmpty
  | c :: rest => leadsWith needle (c :: rest) || containsSub needle rest

/-- The per-user Atlassian OAuth block of `worker_agent.configure_tools`
(the code between the portal-marker check and the Azure section): check
and clean the completion marker, look up the stored token, build the
write tools when a token exists (deleting the stored token when the
failure message looks auth-flavoured), and register the authorization
tool exactly when no write tools were registered.  Building the auth
tool (`build_atlassian_auth_tool`) only constructs a closure and cannot
raise, so it is modelled as always succeeding. -/
def configure_atlassian_tools (env : WorkerEnv) (store : Store)
    (slack_user_id : Str) : List AtlTool × Store :=
  if slack_user_id = [] then ([], store)
  else
    let store0 := (check_and_cleanup_auth_prompt env store slack_user_id).2
    match lookup_user_token env store0 slack_user_id "atlassian".data with
    | some user_refresh_token =>
      match build_atlassian_rest_tools env store0 user_refresh_token
          (some slack_user_id) with
      | (.ok ctx, store1, _) => ([.writeTools ctx], store1)
      | (.error msg, store1, _) =>
        let lower := toLowerStr msg
        let store2 :=
          if containsSub "token".data lower || containsSub "401".data lower ||
              containsSub "403".data lower then
            delete_user_token env store1 slack_user_id "atlassian".data
          else store1
        ([.authTool], store2)
    | none => ([.authTool], store0)

/-! ## Authorization portal -/

/-- The portal's secret bundle (`PORTAL_SIGNING_SECRET`,
`ATLASSIAN_OAUTH_CLIENT_ID/SECRET`), assumed complete once fetched. -/
structure Secrets where
  portalSigningSecret : Bytes := []
  clientId : Str := []
  clientSecret : Str := []
deriving Repr, DecidableEq

/-- The CSRF state blob contents (`slack_user_id`, `nonce`,
`display_name`), as serialized to JSON and base64 by the dashboard and
decoded by the callback (`state["slack_user_id"]` and `state["nonce"]`
are required — a `KeyError` is caught and treated as an invalid state). -/
structure StateData where
  slack_user_id : Str
  nonce : Str
  display_name : Str := []
deriving Repr, DecidableEq

/-- Python exceptions that can propagate out of a route handler to
`lambda_handler` (everything not caught by the local
`ValueError`/`ClientError` handlers). -/
inductive PyExn
  /-- `get_function_url`: `ValueError` when the event has no domain. -/
  | noDomain
  /-- `get_secret`: `RuntimeError("Failed to fetch secrets: …")`. -/
  | secretsFetchFailed (detail : Str)
  /-- `base64.b64decode` raised on a body flagged base64-encoded. -/
  | bodyDecodeError
deriving Repr, DecidableEq

/-- The `str(e)` of an escaped exception, as interpolated into the 500
page by `lambda_handler`. -/
def pyExnMessage : PyExn → Str
  | .noDomain => "Unable to determine function URL from event".data
  | .secretsFetchFailed d => "Failed to fetch secrets: ".data ++ d
  | .bodyDecodeError => "Incorrect padding".data

/-- The inner `ValueError` message of each `validate_jwt` failure, as
re-raised wrapped in "JWT validation failed: …" (the data-dependent
decode/parse messages of `malformedPayload` are abstracted to a fixed
string). -/
def jwtErrorMessage : JwtError → Str
  | .invalidFormat => "JWT validation failed: Invalid JWT format".data
  | .invalidSignature => "JWT validation failed: Invalid JWT signature".data
  | .malformedPayload => "JWT validation failed: payload decode error".data
  | .missingExpiration => "JWT validation failed: JWT missing expiration".data
  | .expired => "JWT validation failed: JWT token expired".data

/-- Bodies of rendered pages (`portal_html`): an error page carrying its
message, the dashboard page, or the empty redirect body. -/
inductive PageBody
  | errorPage (msg : Str)
  | dashboardPage (uid : Str) (connected : Bool) (justConnected : Option Str)
      (token : Str)
  | empty
deriving Repr, DecidableEq

/-- A Lambda response dict. -/
structure HttpResponse where
  statusCode : Nat
  body : PageBody
  location : Option Str := none
deriving Repr, DecidableEq

/-- A Lambda function-URL event, restricted to the fields the portal
reads.  `queryToken = some []` models an empty `token=` parameter
(present but falsy in Python). -/
structure Event where
  rawPath : Str := "/".data
  method : Str := "GET".data
  domainName : Option Str := none
  queryToken : Option Str := none
  queryJustConnected : Option Str := none
  queryCode : Option Str := none
  queryState : Option Str := none
  body : Str := []
  isBase64Encoded : Bool := false
deriving Repr, DecidableEq

/-- Outcome-level model of the portal's collaborators: Secrets Manager,
the clock, the fresh `uuid4` nonce, HMAC and the JSON codecs (claims and
state blobs), KMS, the Atlassian refresh/code-exchange and
accessible-resources endpoints, and DynamoDB failure injection. -/
structure PortalEnv where
  secretsResult : Except Str Secrets := .ok {}
  now : Int := 0
  freshNonce : Str := []
  hmac : Bytes → Bytes → Bytes := fun _ _ => []
  dumps : Claims → Bytes := fun _ => []
  loads : Bytes → Option Claims := fun _ => none
  dumpsState : StateData → Bytes := fun _ => []
  loadsState : Bytes → Option StateData := fun _ => none
  encryptP : Str → Except Str Str := fun s => .ok s
  decryptP : Str → Except Str Str := fun s => .ok s
  refreshExchangeP : Str → Except Str (Option Str × Int) := fun _ => .error []
  codeExchangeP : Str → Except Str (Str × Str × Int) := fun _ => .error []
  resourcesP : Str → Except Str (List Resource) := fun _ => .ok []
  failGet : Str → Bool := fun _ => false
  failPut : Str → Bool := fun _ => false
  failDelete : Str → Bool := fun _ => false
  failUpdate : Str → Bool := fun _ => false

/-- `auth_portal._verify_atlassian_token`: decrypt the stored refresh
token, attempt a refresh grant, store a rotated refresh token back and
report `(is_valid, token_expires_at)`; any raise inside is caught and
reported as `(False, None)`. -/
def verify_atlassian_token (env : PortalEnv) (store : Store) (item : Item) :
    (Bool × Option Int) × Store :=
  match item.encrypted_refresh_token with
  | none => ((false, none), store)
  | some enc =>
    if enc = [] then ((false, none), store)
    else
      match env.decryptP enc with
      | .error _ => ((false, none), store)
      | .ok refresh_token =>
        match env.refreshExchangeP refresh_token with
        | .error _ => ((false, none), store)
        | .ok (new_refresh, expires_in) =>
          let token_expires_at := env.now + expires_in
          match new_refresh with
          | some nrt =>
            match env.encryptP nrt with
            | .error _ => ((false, none), store)
            | .ok encNew =>
              if env.failUpdate item.pk then ((false, none), store)
              else ((true, some token_expires_at),
                    supdateRefresh3 store item.pk encNew env.now token_expires_at)
          | none => ((true, some token_expires_at), store)

/-- The connection-status check of `handle_dashboard`: trust a
`just_connected=atlassian` flag, otherwise read the record and live-verify
it (a `ClientError` on the read is caught and means "not connected"). -/
def dashboard_connection_check (env : PortalEnv) (store : Store) (event : Event)
    (uid : Str) : (Bool × Option Int) × Store :=
  if event.queryJustConnected = some "atlassian".data then
    ((true, some (env.now + 3600)), store)
  else if env.failGet (userPk uid "atlassian".data) then ((false, none), store)
  else
    match sget store (userPk uid "atlassian".data) with
    | none => ((false, none), store)
    | some item =>
      match item.encrypted_refresh_token with
      | none => ((false, none), store)
      | some enc =>
        if enc = [] then ((false, none), store)
        else verify_atlassian_token env store item

/-- `auth_portal.handle_dashboard` (GET /): authenticate the hand-off
token, determine connection status, store a fresh CSRF nonce and render
the dashboard.  The result pairs the response (or escaped exception)
with the store after the request. -/
def handle_dashboard (env : PortalEnv) (store : Store) (event : Event) :
    Except PyExn HttpResponse × Store :=
  match event.queryToken with
  | none => (.ok ⟨400, .errorPage "Missing authentication token".data, none⟩, store)
  | some token =>
    if token = [] then
      (.ok ⟨400, .errorPage "Missing authentication token".data, none⟩, store)
    else
      match env.secretsResult with
      | .error d => (.error (.secretsFetchFailed d), store)
      | .ok secrets =>
        match validate_jwt env.hmac env.loads secrets.portalSigningSecret env.now
            token with
        | .error e =>
            (.ok ⟨401, .errorPage ("Authentication failed: ".data ++
              jwtErrorMessage e), none⟩, store)
        | .ok payload =>
          match payload.slack_user_id with
          | none =>
              (.ok ⟨401, .errorPage
                "Authentication failed: JWT missing slack_user_id".data, none⟩,
               store)
          | some uid =>
            if uid = [] then
              (.ok ⟨401, .errorPage
                "Authentication failed: JWT missing slack_user_id".data, none⟩,
               store)
            else
              let checkRes := dashboard_connection_check env store event uid
              let connected := checkRes.1.1
              let store1 := checkRes.2
              match event.domainName with
              | none => (.error .noDomain, store1)
              | some _ =>
                let noncePk := noncePkOf env.freshNonce
                if env.failPut noncePk then
                  (.ok ⟨500, .errorPage
                    "Failed to initialize authorization. Please try again.".data,
                    none⟩, store1)
                else
                  (.ok ⟨200,
                    .dashboardPage uid connected event.queryJustConnected token,
                    none⟩,
                   sput store1 noncePk
                     { pk := noncePk, slack_user_id := some uid,
                       created_at := some env.now, ttl := some (env.now + 600) })

/-- `auth_portal.handle_atlassian_callback` (GET /callback/atlassian):
parameter checks, state decode, CSRF nonce validation with immediate
one-time-use deletion, code exchange, resource discovery, encryption,
token storage, best-effort completion marker, fresh-token redirect. -/
def handle_atlassian_callback (env : PortalEnv) (store : Store) (event : Event) :
    Except PyExn HttpResponse × Store :=
  match event.queryCode, event.queryState with
  | some code, some state_b64 =>
    if code = [] ∨ state_b64 = [] then
      (.ok ⟨400, .errorPage "Missing OAuth parameters".data, none⟩, store)
    else
      match (urlsafeB64decode? (state_b64 ++ "==".data)).bind env.loadsState with
      | none =>
          (.ok ⟨400, .errorPage "Invalid state parameter".data, none⟩, store)
      | some st =>
        let noncePk := noncePkOf st.nonce
        if env.failGet noncePk then
          (.ok ⟨400, .errorPage "CSRF validation failed".data, none⟩, store)
        else
          match sget store noncePk with
          | none =>
              (.ok ⟨400, .errorPage
                "CSRF validation failed: Invalid or expired nonce".data, none⟩,
               store)
          | some nonce_item =>
            if nonce_item.slack_user_id ≠ some st.slack_user_id then
              (.ok ⟨400, .errorPage
                "CSRF validation failed: Nonce user mismatch".data, none⟩, store)
            else if env.failDelete noncePk then
              (.ok ⟨400, .errorPage "CSRF validation failed".data, none⟩, store)
            else
              let store1 := sdelete store noncePk
              match env.secretsResult with
              | .error d => (.error (.secretsFetchFailed d), store1)
              | .ok secrets =>
                match event.domainName with
                | none => (.error .noDomain, store1)
                | some domain =>
                  match env.codeExchangeP code with
                  | .error msg =>
                      (.ok ⟨500, .errorPage
                        ("Failed to exchange OAuth code: ".data ++ msg), none⟩,
                       store1)
                  | .ok (access_token, refresh_token, expires_in) =>
                    match env.resourcesP access_token with
                    | .error msg =>
                        (.ok ⟨500, .errorPage
                          ("Failed to fetch Atlassian resources: ".data ++ msg),
                          none⟩, store1)
                    | .ok [] =>
                        (.ok ⟨500, .errorPage
                          ("Failed to fetch Atlassian resources: ".data ++
                            "No accessible Atlassian resources found".data),
                          none⟩, store1)
                    | .ok (r :: _) =>
                      match env.encryptP access_token, env.encryptP refresh_token with
                      | .error m, _ =>
                          (.ok ⟨500, .errorPage ("Encryption failed: ".data ++ m),
                            none⟩, store1)
                      | .ok _, .error m =>
                          (.ok ⟨500, .errorPage ("Encryption failed: ".data ++ m),
                            none⟩, store1)
                      | .ok encA, .ok encR =>
                        let pk := userPk st.slack_user_id "atlassian".data
                        if env.failPut pk then
                          (.ok ⟨500, .errorPage "Failed to store tokens".data,
                            none⟩, store1)
                        else
                          let store2 := sput store1 pk
                            { pk := pk, provider := some "atlassian".data,
                              encrypted_refresh_token := some encR,
                              encrypted_access_token := some encA,
                              token_expires_at := some (env.now + expires_in),
                              cloud_id := some r.id,
                              created_at := some env.now,
                              updated_at := some env.now }
                          let portalPk := portalPkOf st.slack_user_id
                          let store3 :=
                            if env.failPut portalPk then store2
                            else sput store2 portalPk
                              { pk := portalPk, status := some "completed".data,
                                provider := some "atlassian".data,
                                updated_at := some env.now,
                                ttl := some (env.now + 3600) }
                          let dashboard_jwt := create_jwt env.hmac env.dumps
                            secrets.portalSigningSecret
                            { slack_user_id := some st.slack_user_id,
                              display_name := some st.display_name,
                              exp := some (env.now + 600) }
                          (.ok ⟨302, .empty,
                            some ("https://".data ++ domain ++ "?token=".data ++
                              dashboard_jwt ++ "&just_connected=atlassian".data)⟩,
                           store3)
  | _, _ => (.ok ⟨400, .errorPage "Missing OAuth parameters".data, none⟩, store)

def splitOnCharAux (sep : Char) : Str → Str → List Str
  | [], cur => [cur.reverse]
  | c :: rest, cur =>
      if c = sep then cur.reverse :: splitOnCharAux sep rest []
      else splitOnCharAux sep rest (c :: cur)

/-- Python `s.split(sep)` for a one-character separator. -/
def splitOnChar (sep : Char) (s : Str) : List Str := splitOnCharAux sep s []

/-- Split a form field at its first `=` (`none` when there is none). -/
def splitFirstEq : Str → Option (Str × Str)
  | [] => none
  | c :: rest =>
      if c = '=' then some ([], rest)
      else (splitFirstEq rest).map (fun p => (c :: p.1, p.2))

def hexVal? (c : Char) : Option Nat :=
  if '0' ≤ c ∧ c ≤ '9' then some (c.toNat - 48)
  else if 'a' ≤ c ∧ c ≤ 'f' then some (c.toNat - 87)
  else if 'A' ≤ c ∧ c ≤ 'F' then some (c.toNat - 55)
  else none

/-- `urllib.parse.unquote_plus`: `+` becomes a space and `%hh` escapes
are decoded (invalid escapes pass through literally). -/
def unquotePlus : Str → Str
  | [] => []
  | '+' :: rest => ' ' :: unquotePlus rest
  | '%' :: a :: b :: rest =>
      match hexVal? a, hexVal? b with
      | some x, some y => Char.ofNat (16 * x + y) :: unquotePlus rest
      | _, _ => '%' :: unquotePlus (a :: b :: rest)
  | c :: rest => c :: unquotePlus rest

def findTokenField : List Str → Option Str
  | [] => none
  | f :: rest =>
    match splitFirstEq f with
    | none => findTokenField rest
    | some (name, value) =>
      if value = [] then findTokenField rest
      else if unquotePlus name = "token".data then some (unquotePlus value)
      else findTokenField rest

/-- `urllib.parse.parse_qs(body).get("token", [None])[0]` with default
arguments: fields split on `&`, fields without `=` or with an empty raw
value dropped, names and values `unquote_plus`-decoded, first `token`
occurrence wins. -/
def parse_qs_token (body : Str) : Option Str :=
  findTokenField (splitOnChar '&' body)

/-- The authenticated tail of `handle_atlassian_revoke`: validate the
hand-off token, delete the provider record, mint a fresh 10-minute token
and redirect to the dashboard. -/
def revoke_authed (env : PortalEnv) (store : Store) (event : Event)
    (token : Str) : Except PyExn HttpResponse × Store :=
  match env.secretsResult with
  | .error d => (.error (.secretsFetchFailed d), store)
  | .ok secrets =>
    match validate_jwt env.hmac env.loads secrets.portalSigningSecret env.now
        token with
    | .error e =>
        (.ok ⟨401, .errorPage ("Authentication failed: ".data ++
          jwtErrorMessage e), none⟩, store)
    | .ok payload =>
      match payload.slack_user_id with
      | none =>
          (.ok ⟨401, .errorPage
            "Authentication failed: JWT missing slack_user_id".data, none⟩, store)
      | some uid =>
        if uid = [] then
          (.ok ⟨401, .errorPage
            "Authentication failed: JWT missing slack_user_id".data, none⟩, store)
        else
          let pk := userPk uid "atlassian".data
          if env.failDelete pk then
            (.ok ⟨500, .errorPage "Failed to revoke authorization".data, none⟩,
             store)
          else
            let store1 := sdelete store pk
            let claims : Claims :=
              { slack_user_id := some uid
                display_name :=
                  match payload.display_name with
                  | some d => if d = [] then none else some d
                  | none => none
                exp := some (env.now + 600) }
            let fresh := create_jwt env.hmac env.dumps
              secrets.portalSigningSecret claims
            match event.domainName with
            | none => (.error .noDomain, store1)
            | some domain =>
                (.ok ⟨302, .empty,
                  some ("https://".data ++ domain ++ "/?token=".data ++ fresh)⟩,
                 store1)

/-- The transport decode of the revoke request body: when the event is
flagged base64-encoded, `base64.b64decode(body).decode()` — whose raise
(`binascii.Error`) escapes the handler — otherwise the body itself. -/
def revoke_body_decoded (event : Event) : Except PyExn Str :=
  if event.isBase64Encoded then
    match stdB64decode? event.body with
    | none => .error .bodyDecodeError
    | some bs => .ok (bs.map Char.ofNat)
  else .ok event.body

/-- `auth_portal.handle_atlassian_revoke` (POST /revoke/atlassian): the
hand-off token is taken from the query string, else from the
(possibly base64-transport-encoded) form body. -/
def handle_atlassian_revoke (env : PortalEnv) (store : Store) (event : Event) :
    Except PyExn HttpResponse × Store :=
  let tokenFromQuery : Option Str :=
    match event.queryToken with
    | some t => if t = [] then none else some t
    | none => none
  match tokenFromQuery with
  | some token => revoke_authed env store event token
  | none =>
    match revoke_body_decoded event with
    | .error e => (.error e, store)
    | .ok body =>
      let tokenFromBody : Option Str :=
        if body = [] then none else parse_qs_token body
      match tokenFromBody with
      | none =>
          (.ok ⟨400, .errorPage "Missing authentication token".data, none⟩, store)
      | some token => revoke_authed env store event token

/-- `auth_portal.lambda_handler`: route on `rawPath` and the HTTP method;
an unknown combination yields 404, and an exception escaping a route
handler is converted into a 500 page interpolating `str(e)` (the
traceback is only printed). -/
def lambda_handler (env : PortalEnv) (store : Store) (event : Event) :
    HttpResponse × Store :=
  let routed : Option (Except PyExn HttpResponse × Store) :=
    if event.rawPath = "/".data ∧ event.method = "GET".data then
      some (handle_dashboard env store event)
    else if event.rawPath = "/callback/atlassian".data ∧
        event.method = "GET".data then
      some (handle_atlassian_callback env store event)
    else if event.rawPath = "/revoke/atlassian".data ∧
        event.method = "POST".data then
      some (handle_atlassian_revoke env store event)
    else none
  match routed with
  | none =>
      (⟨404, .errorPage ("Route not found: ".data ++ event.method ++
        " ".data ++ event.rawPath), none⟩, store)
  | some (result, store1) =>
    match result with
    | .ok resp => (resp, store1)
    | .error ex =>
        (⟨500, .errorPage ("Internal server error: ".data ++ pyExnMessage ex),
          none⟩, store1)

/-! ## Payload extraction and concrete codec instances for witnesses -/

/-- The decoded payload segment of a token: the middle dot-separated
part, re-padded and base64url-decoded exactly as `validate_jwt` does. -/
def jwt_payload_bytes (token : Str) : Option Bytes :=
  match splitOnDot token with
  | [_, p, _] => decodeRepadded? p
  | _ => none

/-- A concrete stand-in for HMAC-SHA256 used to instantiate witnesses
(the codec theorems hold for every `hmac` parameter). -/
def toyHmac (key msg : Bytes) : Bytes :=
  [key.length % 256, msg.length % 256, msg.foldl (fun a b => (a + b) % 256) 7]

def encOptStr : Option Str → Bytes
  | none => [0]
  | some s => 1 :: s.length :: s.map Char.toNat

def encOptInt : Option Int → Bytes
  | none => [0]
  | some n => [1, if n < 0 then 1 else 0, n.natAbs]

/-- A concrete injective claims serialization instantiating the abstract
`json.dumps` parameter in witnesses. -/
def toyDumps (c : Claims) : Bytes :=
  encOptStr c.slack_user_id ++ encOptStr c.display_name ++ encOptInt c.exp

def decOptStr : Bytes → Option (Option Str × Bytes)
  | 0 :: rest => some (none, rest)
  | 1 :: n :: rest =>
      if n ≤ rest.length then
        some (some ((rest.take n).map Char.ofNat), rest.drop n)
      else none
  | _ => none

def decOptInt : Bytes → Option (Option Int × Bytes)
  | [0] => some (none, [])
  | [1, s, m] => some (some (if s = 1 then -(m : Int) else (m : Int)), [])
  | _ => none

/-- Partial inverse of `toyDumps`, instantiating `json.loads`. -/
def toyLoads (bs : Bytes) : Option Claims :=
  match decOptStr bs with
  | none => none
  | some (u, r1) =>
    match decOptStr r1 with
    | none => none
    | some (d, r2) =>
      match decOptInt r2 with
      | none => none
      | some (e, _) => some { slack_user_id := u, display_name := d, exp := e }

/-- A concrete state-blob serialization for witnesses. -/
def toyDumpsState (st : StateData) : Bytes :=
  encOptStr (some st.slack_user_id) ++ encOptStr (some st.nonce) ++
    encOptStr (some st.display_name)

/-- Partial inverse of `toyDumpsState`. -/
def toyLoadsState (bs : Bytes) : Option StateData :=
  match decOptStr bs with
  | some (some u, r1) =>
    (match decOptStr r1 with
     | some (some n, r2) =>
       (match decOptStr r2 with
        | some (some d, _) =>
            some { slack_user_id := u, nonce := n, display_name := d }
        | _ => none)
     | _ => none)
  | _ => none

/-! ## Base64 and splitting lemmas -/

theorem getD_mem_or {α : Type} (l : List α) (n : Nat) (d : α) :
    l.getD n d ∈ l ∨ l.getD n d = d := by
  induction l generalizing n with
  | nil => right; simp [List.getD]
  | cons a t ih =>
    cases n with
    | zero => left; simp
    | succ m =>
      rcases ih m with h | h
      · left; simpa using Or.inr h
      · right; simpa using h

theorem b64Char_ne_pad (n : Nat) : b64Char n ≠ '=' := by
  rcases getD_mem_or b64Table n '?' with h | h
  · intro he
    rw [show b64Table.getD n '?' = b64Char n from rfl, he] at h
    revert h; decide
  · rw [show b64Char n = b64Table.getD n '?' from rfl, h]; decide

theorem b64Char_ne_dot (n : Nat) : b64Char n ≠ '.' := by
  rcases getD_mem_or b64Table n '?' with h | h
  · intro he
    rw [show b64Table.getD n '?' = b64Char n from rfl, he] at h
    revert h; decide
  · rw [show b64Char n = b64Table.getD n '?' from rfl, h]; decide

theorem chunk3Cases {P : Bytes → Prop} (h0 : P []) (h1 : ∀ b, P [b])
    (h2 : ∀ b c, P [b, c])
    (h3 : ∀ b c d rest, P rest → P (b :: c :: d :: rest)) :
    ∀ bs, P bs
  | [] => h0
  | [b] => h1 b
  | [b, c] => h2 b c
  | b :: c :: d :: rest => h3 b c d rest (chunk3Cases h0 h1 h2 h3 rest)

theorem mem_b64EncodeBody_ne (bs : Bytes) :
    ∀ c ∈ b64EncodeBody bs, c ≠ '=' ∧ c ≠ '.' := by
  induction bs using chunk3Cases with
  | h0 => intro c hc; simp [b64EncodeBody] at hc
  | h1 b =>
    intro c hc
    simp [b64EncodeBody] at hc
    rcases hc with h | h <;> subst h <;>
      exact ⟨b64Char_ne_pad _, b64Char_ne_dot _⟩
  | h2 b c' =>
    intro c hc
    simp [b64EncodeBody] at hc
    rcases hc with h | h | h <;> subst h <;>
      exact ⟨b64Char_ne_pad _, b64Char_ne_dot _⟩
  | h3 b c' d rest ih =>
    intro c hc
    simp only [b64EncodeBody, List.mem_cons] at hc
    rcases hc with h | h | h | h | h
    · subst h; exact ⟨b64Char_ne_pad _, b64Char_ne_dot _⟩
    · subst h; exact ⟨b64Char_ne_pad _, b64Char_ne_dot _⟩
    · subst h; exact ⟨b64Char_ne_pad _, b64Char_ne_dot _⟩
    · subst h; exact ⟨b64Char_ne_pad _, b64Char_ne_dot _⟩
    · exact ih c h

theorem dropWhile_replicate_pad (k : Nat) (y : Str) :
    List.dropWhile (fun c => c = '=') (List.replicate k '=' ++ y) =
      List.dropWhile (fun c => c = '=') y := by
  induction k with
  | zero => simp
  | succ m ih =>
    simp only [List.replicate_succ, List.cons_append, List.dropWhile]
    simp

theorem rstripEq_append_replicate (x : Str) (k : Nat)
    (hx : ∀ c ∈ x, c ≠ '=') :
    rstripEq (x ++ List.replicate k '=') = x := by
  unfold rstripEq
  rw [List.reverse_append, List.reverse_replicate, dropWhile_replicate_pad]
  have hself : List.dropWhile (fun c => c = '=') x.reverse = x.reverse := by
    cases hrev : x.reverse with
    | nil => simp
    | cons a t =>
      have ha : a ∈ x := by
        rw [← List.mem_reverse, hrev]; simp
      rw [List.dropWhile_cons_of_neg]
      simpa using hx a ha
  rw [hself, List.reverse_reverse]

theorem rstripEq_of_ne (x : Str) (hx : ∀ c ∈ x, c ≠ '=') : rstripEq x = x := by
  have := rstripEq_append_replicate x 0 hx
  simpa using this

theorem rstripEq_encode (bs : Bytes) :
    rstripEq (urlsafeB64encode bs) = b64EncodeBody bs := by
  unfold urlsafeB64encode
  exact rstripEq_append_replicate _ _ (fun c hc => (mem_b64EncodeBody_ne bs c hc).1)

theorem mem_rstrip_encode_ne (bs : Bytes) :
    ∀ c ∈ rstripEq (urlsafeB64encode bs), c ≠ '=' ∧ c ≠ '.' := by
  rw [rstripEq_encode]; exact mem_b64EncodeBody_ne bs

theorem b64Index?_b64Char : ∀ n < 64, b64Index? (b64Char n) = some n := by decide

/-! Step lemmas for the lenient base64 decoder. -/

theorem a2bLoop_nil (idx : Char → Option Nat) (pads : Nat) (acc : Bytes) :
    a2bLoop idx [] [] pads acc = some acc := rfl

theorem a2bLoop_pad_skip0 (idx : Char → Option Nat) (rest : Str) (pads : Nat)
    (acc : Bytes) :
    a2bLoop idx ('=' :: rest) [] pads acc = a2bLoop idx rest [] pads acc := by
  simp [a2bLoop]

theorem a2bLoop_pad2_first (idx : Char → Option Nat) (rest : Str) (a b : Nat)
    (acc : Bytes) :
    a2bLoop idx ('=' :: rest) [a, b] 0 acc =
      a2bLoop idx rest [a, b] 1 acc := by
  simp [a2bLoop]

theorem a2bLoop_pad2_done (idx : Char → Option Nat) (rest : Str) (a b : Nat)
    (pads : Nat) (acc : Bytes) (h : pads ≠ 0) :
    a2bLoop idx ('=' :: rest) [a, b] pads acc =
      some (acc ++ [a * 4 + b / 16]) := by
  simp [a2bLoop, h]

theorem a2bLoop_pad3 (idx : Char → Option Nat) (rest : Str) (a b d : Nat)
    (pads : Nat) (acc : Bytes) :
    a2bLoop idx ('=' :: rest) [a, b, d] pads acc =
      some (acc ++ [a * 4 + b / 16, b % 16 * 16 + d / 4]) := by
  simp [a2bLoop]

theorem a2bLoop_step0 {idx : Char → Option Nat} {c : Char} {v : Nat}
    (hc : c ≠ '=') (hv : idx c = some v) (rest : Str) (pads : Nat)
    (acc : Bytes) :
    a2bLoop idx (c :: rest) [] pads acc = a2bLoop idx rest [v] 0 acc := by
  simp only [a2bLoop, hv, if_neg hc, List.cons_append, List.nil_append]

theorem a2bLoop_step1 {idx : Char → Option Nat} {c : Char} {v : Nat}
    (hc : c ≠ '=') (hv : idx c = some v) (rest : Str) (a : Nat) (pads : Nat)
    (acc : Bytes) :
    a2bLoop idx (c :: rest) [a] pads acc = a2bLoop idx rest [a, v] 0 acc := by
  simp only [a2bLoop, hv, if_neg hc, List.cons_append, List.nil_append]

theorem a2bLoop_step2 {idx : Char → Option Nat} {c : Char} {v : Nat}
    (hc : c ≠ '=') (hv : idx c = some v) (rest : Str) (a b : Nat) (pads : Nat)
    (acc : Bytes) :
    a2bLoop idx (c :: rest) [a, b] pads acc =
      a2bLoop idx rest [a, b, v] 0 acc := by
  simp only [a2bLoop, hv, if_neg hc, List.cons_append, List.nil_append]

theorem a2bLoop_step3 {idx : Char → Option Nat} {c : Char} {v : Nat}
    (hc : c ≠ '=') (hv : idx c = some v) (rest : Str) (a b d : Nat)
    (pads : Nat) (acc : Bytes) :
    a2bLoop idx (c :: rest) [a, b, d] pads acc =
      a2bLoop idx rest [] 0
        (acc ++ [a * 4 + b / 16, b % 16 * 16 + d / 4, d % 4 * 64 + v]) := by
  simp only [a2bLoop, hv, if_neg hc, List.cons_append, List.nil_append]

theorem a2b_encode_roundtrip :
    ∀ bs : Bytes, (∀ b ∈ bs, b < 256) → ∀ acc : Bytes,
      a2bLoop b64Index?
        (b64EncodeBody bs ++
          List.replicate (4 - (b64EncodeBody bs).length % 4) '=') [] 0 acc
      = some (acc ++ bs) := by
  intro bs
  induction bs using chunk3Cases with
  | h0 =>
    intro _ acc
    simp [b64EncodeBody, a2bLoop, List.replicate]
  | h1 b =>
    intro hlt acc
    have hb : b < 256 := hlt b (by simp)
    have hlen : 4 - (b64EncodeBody [b]).length % 4 = 2 := by
      simp [b64EncodeBody]
    rw [hlen,
      show b64EncodeBody [b] ++ List.replicate 2 '=' =
        b64Char (b / 4) :: b64Char (b % 4 * 16) :: '=' :: '=' :: [] from rfl,
      a2bLoop_step0 (b64Char_ne_pad _) (b64Index?_b64Char _ (by omega)),
      a2bLoop_step1 (b64Char_ne_pad _) (b64Index?_b64Char _ (by omega)),
      a2bLoop_pad2_first,
      a2bLoop_pad2_done _ _ _ _ _ _ Nat.one_ne_zero]
    have e0 : b / 4 * 4 + b % 4 * 16 / 16 = b := by omega
    rw [e0]
  | h2 b c =>
    intro hlt acc
    have hb : b < 256 := hlt b (by simp)
    have hc : c < 256 := hlt c (by simp)
    have hlen : 4 - (b64EncodeBody [b, c]).length % 4 = 1 := by
      simp [b64EncodeBody]
    rw [hlen,
      show b64EncodeBody [b, c] ++ List.replicate 1 '=' =
        b64Char (b / 4) :: b64Char (b % 4 * 16 + c / 16) ::
          b64Char (c % 16 * 4) :: '=' :: [] from rfl,
      a2bLoop_step0 (b64Char_ne_pad _) (b64Index?_b64Char _ (by omega)),
      a2bLoop_step1 (b64Char_ne_pad _) (b64Index?_b64Char _ (by omega)),
      a2bLoop_step2 (b64Char_ne_pad _) (b64Index?_b64Char _ (by omega)),
      a2bLoop_pad3]
    have e0 : b / 4 * 4 + (b % 4 * 16 + c / 16) / 16 = b := by omega
    have e1 : (b % 4 * 16 + c / 16) % 16 * 16 + c % 16 * 4 / 4 = c := by omega
    rw [e0, e1]
  | h3 b c d rest ih =>
    intro hlt acc
    have hb : b < 256 := hlt b (by simp)
    have hc : c < 256 := hlt c (by simp)
    have hd : d < 256 := hlt d (by simp)
    have hrest : ∀ x ∈ rest, x < 256 := fun x hx => hlt x (by simp [hx])
    have hlen : 4 - (b64EncodeBody (b :: c :: d :: rest)).length % 4 =
        4 - (b64EncodeBody rest).length % 4 := by
      simp only [b64EncodeBody, List.length_cons]
      omega
    rw [hlen,
      show b64EncodeBody (b :: c :: d :: rest) =
        b64Char (b / 4) :: b64Char (b % 4 * 16 + c / 16) ::
          b64Char (c % 16 * 4 + d / 64) :: b64Char (d % 64) ::
            b64EncodeBody rest from rfl]
    simp only [List.cons_append]
    rw [a2bLoop_step0 (b64Char_ne_pad _) (b64Index?_b64Char _ (by omega)),
      a2bLoop_step1 (b64Char_ne_pad _) (b64Index?_b64Char _ (by omega)),
      a2bLoop_step2 (b64Char_ne_pad _) (b64Index?_b64Char _ (by omega)),
      a2bLoop_step3 (b64Char_ne_pad _) (b64Index?_b64Char _ (by omega))]
    have e0 : b / 4 * 4 + (b % 4 * 16 + c / 16) / 16 = b := by omega
    have e1 : (b % 4 * 16 + c / 16) % 16 * 16 + (c % 16 * 4 + d / 64) / 4 = c := by
      omega
    have e2 : (c % 16 * 4 + d / 64) % 4 * 64 + d % 64 = d := by omega
    rw [e0, e1, e2, ih hrest (acc ++ [b, c, d])]
    simp

theorem decodeRepadded_encode (bs : Bytes) (h : ∀ b ∈ bs, b < 256) :
    decodeRepadded? (rstripEq (urlsafeB64encode bs)) = some bs := by
  rw [rstripEq_encode]
  unfold decodeRepadded? urlsafeB64decode?
  simpa using a2b_encode_roundtrip bs h []

theorem splitOnDotAux_no_dot (x : Str) (hx : ∀ c ∈ x, c ≠ '.') :
    ∀ cur, splitOnDotAux x cur = [cur.reverse ++ x] := by
  induction x with
  | nil => intro cur; simp [splitOnDotAux]
  | cons a t ih =>
    intro cur
    unfold splitOnDotAux
    rw [if_neg (hx a (by simp))]
    rw [ih (fun c hc => hx c (by simp [hc])) (a :: cur)]
    simp

theorem splitOnDotAux_dot_mid (x : Str) (hx : ∀ c ∈ x, c ≠ '.') :
    ∀ cur t, splitOnDotAux (x ++ '.' :: t) cur =
      (cur.reverse ++ x) :: splitOnDotAux t [] := by
  induction x with
  | nil =>
    intro cur t
    simp [splitOnDotAux]
  | cons a s ih =>
    intro cur t
    rw [List.cons_append]
    show (if a = '.' then cur.reverse :: splitOnDotAux (s ++ '.' :: t) []
          else splitOnDotAux (s ++ '.' :: t) (a :: cur))
        = (cur.reverse ++ a :: s) :: splitOnDotAux t []
    rw [if_neg (hx a (by simp))]
    rw [ih (fun c hc => hx c (by simp [hc])) (a :: cur) t]
    simp

theorem splitOnDot_three (h p s : Str)
    (hh : ∀ c ∈ h, c ≠ '.') (hp : ∀ c ∈ p, c ≠ '.') (hs : ∀ c ∈ s, c ≠ '.') :
    splitOnDot (h ++ '.' :: (p ++ '.' :: s)) = [h, p, s] := by
  unfold splitOnDot
  rw [splitOnDotAux_dot_mid h hh [] (p ++ '.' :: s),
    splitOnDotAux_dot_mid p hp [] s,
    splitOnDotAux_no_dot s hs []]
  simp

/-- Validating any token built by the shared JWT construction with the same
secret succeeds and returns the issued claims, provided the claims carry a
not-yet-passed `exp`, the JSON codec round-trips on them, and the
serialization is a genuine byte string. -/
theorem validate_mkJwt (hmac : Bytes → Bytes → Bytes) (dumpsF : Claims → Bytes)
    (loads : Bytes → Option Claims) (headerJson : Str) (secret : Bytes)
    (now : Int) (c : Claims) (e : Int)
    (hexp : c.exp = some e) (hfut : now ≤ e)
    (hld : loads (dumpsF c) = some c)
    (hbytes : ∀ b ∈ dumpsF c, b < 256) :
    validate_jwt hmac loads secret now (mkJwt hmac dumpsF headerJson secret c) =
      .ok c := by
  unfold mkJwt validate_jwt
  simp only []
  rw [splitOnDot_three _ _ _
    (fun ch hch => (mem_rstrip_encode_ne _ ch hch).2)
    (fun ch hch => (mem_rstrip_encode_ne _ ch hch).2)
    (fun ch hch => (mem_rstrip_encode_ne _ ch hch).2)]
  simp only []
  rw [rstripEq_of_ne (rstripEq (urlsafeB64encode (hmac secret _)))
    (fun ch hch => (mem_rstrip_encode_ne _ ch hch).1)]
  rw [if_pos rfl]
  simp only [decodeRepadded_encode _ hbytes, hld, hexp]
  rw [if_neg (show ¬ now > e by omega)]

/-! ## Store lemmas -/

theorem sget_sput_self (s : Store) (pk : Str) (it : Item) :
    sget (sput s pk it) pk = some it := by
  induction s with
  | nil => simp [sput, sget]
  | cons kv rest ih =>
    obtain ⟨k, v⟩ := kv
    unfold sput
    by_cases hk : k = pk
    · rw [if_pos hk]; simp [sget]
    · rw [if_neg hk]; unfold sget; rw [if_neg hk]; exact ih

theorem sget_sput_other (s : Store) (pk pk' : Str) (it : Item) (h : pk' ≠ pk) :
    sget (sput s pk it) pk' = sget s pk' := by
  have h' : ¬ (pk = pk') := fun he => h he.symm
  induction s with
  | nil => simp [sput, sget, h']
  | cons kv rest ih =>
    obtain ⟨k, v⟩ := kv
    by_cases hk : k = pk
    · subst hk
      simp [sput, sget, h']
    · by_cases hk' : k = pk'
      · subst hk'
        simp [sput, sget, hk]
      · simp [sput, sget, hk, hk', ih]

theorem sget_sdelete_self (s : Store) (pk : Str) :
    sget (sdelete s pk) pk = none := by
  induction s with
  | nil => simp [sdelete, sget]
  | cons kv rest ih =>
    obtain ⟨k, v⟩ := kv
    by_cases hk : k = pk
    · simp [sdelete, hk, ih]
    · simp [sdelete, sget, hk, ih]

theorem sget_sdelete_other (s : Store) (pk pk' : Str) (h : pk' ≠ pk) :
    sget (sdelete s pk) pk' = sget s pk' := by
  induction s with
  | nil => simp [sdelete]
  | cons kv rest ih =>
    obtain ⟨k, v⟩ := kv
    by_cases hk : k = pk
    · subst hk
      have hne : ¬ (k = pk') := fun he => h he.symm
      simp [sdelete, sget, hne, ih]
    · by_cases hk' : k = pk'
      · subst hk'
        simp [sdelete, sget, hk]
      · simp [sdelete, sget, hk, hk', ih]

theorem sget_supdateRefresh_self (s : Store) (pk : Str) (enc : Str) (now : Int) :
    ∃ it, sget (supdateRefresh s pk enc now) pk = some it ∧
      it.encrypted_refresh_token = some enc := by
  unfold supdateRefresh
  cases sget s pk with
  | none => exact ⟨_, sget_sput_self _ _ _, rfl⟩
  | some it => exact ⟨_, sget_sput_self _ _ _, rfl⟩

/-! ## Claim C1: issue/validate round-trip -/

/-- C1: round-trip of the hand-off token codec — for every claims map
carrying an `exp` strictly in the future, a token issued by `create_jwt`
and validated by `validate_jwt` with the same signing secret succeeds
and returns exactly the issued claims map (hypotheses: the JSON codec
round-trips on this claims map and serializes it to genuine bytes). -/
theorem C1_jwt_issue_validate_roundtrip
    (hmac : Bytes → Bytes → Bytes) (dumps : Claims → Bytes)
    (loads : Bytes → Option Claims) (secret : Bytes) (now : Int) (c : Claims)
    (e : Int) (hexp : c.exp = some e) (hfut : now < e)
    (hld : loads (dumps c) = some c) (hbytes : ∀ b ∈ dumps c, b < 256) :
    validate_jwt hmac loads secret now (create_jwt hmac dumps secret c) =
      .ok c :=
  validate_mkJwt hmac dumps loads headerJsonCompact secret now c e hexp
    (le_of_lt hfut) hld hbytes

/-- Concrete instantiation of the C1 round-trip at `now = 50`,
`exp = 100`, with the concrete codec stand-ins. -/
theorem C1_witness :
    validate_jwt toyHmac toyLoads [7, 7] 50
      (create_jwt toyHmac toyDumps [7, 7]
        { slack_user_id := some "U123".data, display_name := some "Ky".data,
          exp := some 100 }) =
      .ok { slack_user_id := some "U123".data, display_name := some "Ky".data,
            exp := some 100 } :=
  C1_jwt_issue_validate_roundtrip toyHmac toyDumps toyLoads [7, 7] 50 _ 100
    rfl (by decide) (by decide) (by decide)

/-! ## Claim C5: who sets the expiry -/

/-- C5 counterexample: the codec does not add or overwrite the expiry.
Issuing claims whose `exp` is 5 yields a token whose decoded payload
still carries `exp = 5`, not `now + ttl` (at, say, `now = 400` and the
10-minute `ttl = 600` every call site uses). -/
theorem C5_counterexample :
    (jwt_payload_bytes (create_jwt toyHmac toyDumps [7, 7]
        { slack_user_id := some "U1".data, exp := some 5 })).bind toyLoads =
      some { slack_user_id := some "U1".data, exp := some 5 } ∧
    (5 : Int) ≠ 400 + 600 := by
  constructor
  · decide
  · decide

/-- C5 (amended): `create_jwt` serializes the caller's claims unchanged —
the token's payload decodes back to exactly the claims passed in, so the
payload `exp` equals whatever expiry the caller supplied; it is the call
sites (`handle_atlassian_callback`, `handle_atlassian_revoke`,
`generate_portal_url`), not the codec, that compute `exp = now + 600`. -/
theorem C5_amended_payload_is_callers_claims
    (hmac : Bytes → Bytes → Bytes) (dumps : Claims → Bytes)
    (loads : Bytes → Option Claims) (secret : Bytes) (c : Claims)
    (hld : loads (dumps c) = some c) (hbytes : ∀ b ∈ dumps c, b < 256) :
    (jwt_payload_bytes (create_jwt hmac dumps secret c)).bind loads = some c := by
  unfold create_jwt mkJwt jwt_payload_bytes
  simp only []
  rw [splitOnDot_three _ _ _
    (fun ch hch => (mem_rstrip_encode_ne _ ch hch).2)
    (fun ch hch => (mem_rstrip_encode_ne _ ch hch).2)
    (fun ch hch => (mem_rstrip_encode_ne _ ch hch).2)]
  simp only [decodeRepadded_encode _ hbytes, Option.bind, hld]

/-- Concrete instantiation of the amended C5 at `exp = 5`. -/
theorem C5_amended_witness :
    (jwt_payload_bytes (create_jwt toyHmac toyDumps []
        { exp := some 5 })).bind toyLoads = some { exp := some 5 } :=
  C5_amended_payload_is_callers_claims toyHmac toyDumps toyLoads [] _
    (by decide) (by decide)

/-! ## Claim C10: worker-minted tokens validate at the portal -/

/-- C10: cross-implementation compatibility — every hand-off token minted
by the worker's `generate_portal_url` (which serializes header and payload
with default JSON separators) validates under the portal's `validate_jwt`
with the same signing secret at any time up to the 10-minute expiry, and
the returned claims carry the embedded `slack_user_id` and, when a
non-empty display name was supplied, that `display_name`. -/
theorem C10_worker_token_validates_at_portal
    (hmac : Bytes → Bytes → Bytes) (dumpsW : Claims → Bytes)
    (loads : Bytes → Option Claims) (secret : Bytes) (portalUrl uid : Str)
    (dn : Option Str) (now tval : Int)
    (hurl : portalUrl ≠ [])
    (hval : tval ≤ now + 600)
    (hld : loads (dumpsW (workerClaims uid dn now)) =
      some (workerClaims uid dn now))
    (hbytes : ∀ b ∈ dumpsW (workerClaims uid dn now), b < 256) :
    generate_portal_url hmac dumpsW secret portalUrl uid dn now =
      some (portalUrl ++ ("?token=".data ++
        worker_portal_jwt hmac dumpsW secret uid dn now)) ∧
    validate_jwt hmac loads secret tval
      (worker_portal_jwt hmac dumpsW secret uid dn now) =
      .ok (workerClaims uid dn now) ∧
    (workerClaims uid dn now).slack_user_id = some uid ∧
    (∀ d, dn = some d → d ≠ [] →
      (workerClaims uid dn now).display_name = some d) := by
  refine ⟨?_, ?_, rfl, ?_⟩
  · unfold generate_portal_url
    rw [if_neg hurl]
  · exact validate_mkJwt hmac dumpsW loads headerJsonDefault secret tval _
      (now + 600) rfl hval hld hbytes
  · intro d hd hne
    subst hd
    simp [workerClaims, hne]

/-- Concrete instantiation of C10: a worker token minted at `now = -500`
for user `U9` with display name `Ky` (so `exp = 100`), validated at
`tval = 50`, before the expiry. -/
theorem C10_witness :
    generate_portal_url toyHmac toyDumps [3] "https://p".data "U9".data
        (some "Ky".data) (-500) =
      some ("https://p".data ++ ("?token=".data ++
        worker_portal_jwt toyHmac toyDumps [3] "U9".data (some "Ky".data)
          (-500))) ∧
    validate_jwt toyHmac toyLoads [3] 50
      (worker_portal_jwt toyHmac toyDumps [3] "U9".data (some "Ky".data)
        (-500)) =
      .ok (workerClaims "U9".data (some "Ky".data) (-500)) := by
  have h := C10_worker_token_validates_at_portal toyHmac toyDumps toyLoads [3]
    "https://p".data "U9".data (some "Ky".data) (-500) 50
    (by decide) (by decide) (by decide) (by decide)
  exact ⟨h.1, h.2.1⟩

/-! ## Claim C2: full characterization of validation -/

/-- C6: `lookup_user_token` fails open — it returns a refresh token iff
the table is configured, the DynamoDB read succeeds and finds a record
whose `encrypted_refresh_token` attribute is present and non-empty, and
KMS decryption succeeds; in every other case (unconfigured table, store
error, missing record, absent or empty ciphertext, decrypt error) it
returns `none`.  It is a total function: the bare `except Exception`
in the source means no exception reaches the caller. -/
theorem C6_lookup_user_token_fails_open (env : WorkerEnv) (store : Store)
    (uid provider : Str) :
    (∀ pt, lookup_user_token env store uid provider = some pt ↔
      env.oauthTableName ≠ [] ∧ env.failGetW (userPk uid provider) = false ∧
      ∃ item enc, sget store (userPk uid provider) = some item ∧
        item.encrypted_refresh_token = some enc ∧ enc ≠ [] ∧
        env.decryptW enc = .ok pt) ∧
    ((env.oauthTableName = [] ∨ env.failGetW (userPk uid provider) = true ∨
      sget store (userPk uid provider) = none ∨
      (∃ item, sget store (userPk uid provider) = some item ∧
        (item.encrypted_refresh_token = none ∨
         item.encrypted_refresh_token = some [] ∨
         (∃ enc msg, item.encrypted_refresh_token = some enc ∧
           env.decryptW enc = .error msg)))) →
      lookup_user_token env store uid provider = none) := by
  constructor
  · intro pt
    constructor
    · intro hlk
      unfold lookup_user_token at hlk
      by_cases htbl : env.oauthTableName = []
      · rw [if_pos htbl] at hlk; exact Option.noConfusion hlk
      · rw [if_neg htbl] at hlk
        by_cases hfg : env.failGetW (userPk uid provider)
        · rw [if_pos hfg] at hlk; exact Option.noConfusion hlk
        · rw [if_neg hfg] at hlk
          refine ⟨htbl, by simpa using hfg, ?_⟩
          split at hlk
          · exact Option.noConfusion hlk
          · rename_i item hitem
            split at hlk
            · exact Option.noConfusion hlk
            · rename_i enc henc
              by_cases hemp : enc = []
              · rw [if_pos hemp] at hlk; exact Option.noConfusion hlk
              · rw [if_neg hemp] at hlk
                split at hlk
                · exact Option.noConfusion hlk
                · rename_i pt' hdec
                  simp only [Option.some.injEq] at hlk
                  subst hlk
                  exact ⟨item, enc, hitem, henc, hemp, hdec⟩
    · rintro ⟨htbl, hfg, item, enc, hitem, henc, hemp, hdec⟩
      unfold lookup_user_token
      rw [if_neg htbl, if_neg (by simp [hfg]), hitem]
      simp only [henc]
      rw [if_neg hemp]
      simp only [hdec]
  · intro hcase
    unfold lookup_user_token
    by_cases htbl : env.oauthTableName = []
    · rw [if_pos htbl]
    · rw [if_neg htbl]
      by_cases hfg : env.failGetW (userPk uid provider)
      · rw [if_pos hfg]
      · rw [if_neg hfg]
        rcases hcase with h | h | h | ⟨item, hitem, hbad⟩
        · exact absurd h htbl
        · exact absurd h (by simpa using hfg)
        · rw [h]
        · rw [hitem]
          rcases hbad with h | h | ⟨enc, msg, henc, hdec⟩
          · simp only [h]
          · simp [h]
          · simp only [henc]
            by_cases hemp : enc = []
            · rw [if_pos hemp]
            · rw [if_neg hemp]
              simp only [hdec]

/-- Concrete instantiation of C6: a stored, decryptable record is
returned; with the record absent the lookup reports absence. -/
theorem C6_witness :
    lookup_user_token {} [(userPk "U7".data "atlassian".data,
        { pk := userPk "U7".data "atlassian".data,
          encrypted_refresh_token := some "ct".data })]
      "U7".data "atlassian".data = some "ct".data ∧
    lookup_user_token {} [] "U7".data "atlassian".data = none := by
  constructor
  · exact ((C6_lookup_user_token_fails_open {} _ "U7".data "atlassian".data).1
      "ct".data).mpr
      ⟨by decide, rfl, _, "ct".data, rfl, rfl, by decide, rfl⟩
  · exact (C6_lookup_user_token_fails_open {} [] "U7".data "atlassian".data).2
      (Or.inr (Or.inr (Or.inl rfl)))

/-! ## Claim C7: auth tool and write tools are mutually exclusive -/

/-- C7: for every agent turn with a known (non-empty) user id, the
per-user Atlassian block never registers both the request-authorization
tool and the write tools, and it registers the auth tool exactly when the
write tools were not registered (no stored token, or building them
failed). -/
theorem C7_auth_tool_write_tools_exclusive (env : WorkerEnv) (store : Store)
    (uid : Str) (huid : uid ≠ []) :
    (¬ (AtlTool.authTool ∈ (configure_atlassian_tools env store uid).1 ∧
        ∃ ctx, AtlTool.writeTools ctx ∈
          (configure_atlassian_tools env store uid).1)) ∧
    (AtlTool.authTool ∈ (configure_atlassian_tools env store uid).1 ↔
      ∀ ctx, AtlTool.writeTools ctx ∉
        (configure_atlassian_tools env store uid).1) := by
  rcases hlk : lookup_user_token env
      ((check_and_cleanup_auth_prompt env store uid).2) uid "atlassian".data
    with _ | rt
  · have htools : (configure_atlassian_tools env store uid).1 = [.authTool] := by
      simp [configure_atlassian_tools, huid, hlk]
    rw [htools]
    refine ⟨?_, ?_, ?_⟩
    · rintro ⟨-, ctx, hmem⟩
      simp at hmem
    · intro _ ctx hmem
      simp at hmem
    · intro _
      simp
  · rcases hb : build_atlassian_rest_tools env
        ((check_and_cleanup_auth_prompt env store uid).2) rt (some uid)
      with ⟨res, store1, tr⟩
    cases res with
    | error msg =>
      have htools : (configure_atlassian_tools env store uid).1 = [.authTool] := by
        simp [configure_atlassian_tools, huid, hlk, hb]
      rw [htools]
      refine ⟨?_, ?_, ?_⟩
      · rintro ⟨-, ctx, hmem⟩
        simp at hmem
      · intro _ ctx hmem
        simp at hmem
      · intro _
        simp
    | ok ctx =>
      have htools : (configure_atlassian_tools env store uid).1 =
          [.writeTools ctx] := by
        simp [configure_atlassian_tools, huid, hlk, hb]
      rw [htools]
      refine ⟨?_, ?_, ?_⟩
      · rintro ⟨hmem, -⟩
        simp at hmem
      · intro hmem
        simp at hmem
      · intro hall
        exact ((hall ctx) (by simp)).elim

/-- Concrete instantiation of C7: with no stored token only the auth tool
is registered, and both conclusions hold. -/
theorem C7_witness :
    ¬ (AtlTool.authTool ∈ (configure_atlassian_tools {} [] "U1".data).1 ∧
        ∃ ctx, AtlTool.writeTools ctx ∈
          (configure_atlassian_tools {} [] "U1".data).1) :=
  (C7_auth_tool_write_tools_exclusive {} [] "U1".data (by decide)).1

/-! ## Claim C4: rotation persisted before provider API calls -/

theorem build_rest_tools_rotation (env : WorkerEnv) (store : Store)
    (rt uid access nrt : Str)
    (hex : env.exchangeW rt = .ok (access, some nrt)) :
    (build_atlassian_rest_tools env store rt (some uid)).2 =
      ((update_user_refresh_token env store uid nrt "atlassian".data).2,
       [.tokenExchange rt, .persistRotated nrt, .accessibleResources]) := by
  unfold build_atlassian_rest_tools
  simp only [hex]
  cases hres : env.resourcesW access with
  | error msg => simp [hres]
  | ok lst =>
    cases lst with
    | nil => simp [hres]
    | cons r rest =>
      simp only [hres]
      split_ifs <;> simp

theorem update_refresh_store (env : WorkerEnv) (store : Store)
    (uid nrt provider enc : Str)
    (htbl : env.oauthTableName ≠ []) (hkms : env.kmsConfigured = true)
    (henc : env.encryptW nrt = .ok enc)
    (hfup : env.failUpdateW (userPk uid provider) = false) :
    (update_user_refresh_token env store uid nrt provider).2 =
      supdateRefresh store (userPk uid provider) enc env.nowW := by
  unfold update_user_refresh_token
  rw [if_neg (by simp [htbl, hkms])]
  simp only [henc]
  rw [if_neg (by simp [hfup])]

/-- C4: refresh-token rotation ordering — whenever the refresh exchange
returns a new refresh token and a user id is supplied, the consumer's
action trace is exactly exchange, then the persisting store write, then
the accessible-resources query (so the write precedes every subsequent
provider API call, whatever the later outcome), and when the
configuration, store and KMS round-trip cooperate a subsequent
`lookup_user_token` on the resulting store returns the new token. -/
theorem C4_rotation_persists_before_api_calls (env : WorkerEnv) (store : Store)
    (rt uid access nrt : Str)
    (hex : env.exchangeW rt = .ok (access, some nrt)) :
    (build_atlassian_rest_tools env store rt (some uid)).2.2 =
      [.tokenExchange rt, .persistRotated nrt, .accessibleResources] ∧
    (build_atlassian_rest_tools env store rt (some uid)).2.1 =
      (update_user_refresh_token env store uid nrt "atlassian".data).2 ∧
    (∀ enc, env.oauthTableName ≠ [] → env.kmsConfigured = true →
      env.encryptW nrt = .ok enc → enc ≠ [] →
      env.failUpdateW (userPk uid "atlassian".data) = false →
      env.failGetW (userPk uid "atlassian".data) = false →
      env.decryptW enc = .ok nrt →
      lookup_user_token env
        (build_atlassian_rest_tools env store rt (some uid)).2.1
        uid "atlassian".data = some nrt) := by
  have h2 := build_rest_tools_rotation env store rt uid access nrt hex
  refine ⟨by rw [h2], by rw [h2], ?_⟩
  intro enc htbl hkms henc hne hfup hfg hdec
  have hst : (build_atlassian_rest_tools env store rt (some uid)).2.1 =
      supdateRefresh store (userPk uid "atlassian".data) enc env.nowW := by
    rw [h2]
    exact update_refresh_store env store uid nrt "atlassian".data enc htbl hkms
      henc hfup
  rw [hst]
  obtain ⟨it, hit, hfield⟩ :=
    sget_supdateRefresh_self store (userPk uid "atlassian".data) enc env.nowW
  unfold lookup_user_token
  rw [if_neg htbl, if_neg (by simp [hfg]), hit]
  simp only [hfield]
  rw [if_neg hne]
  simp only [hdec]

/-- Concrete instantiation of C4 with an exchange that rotates
`old → nt`: the trace orders the persist before the resources call and
the new token is what a subsequent lookup returns. -/
theorem C4_witness :
    (build_atlassian_rest_tools
        { exchangeW := fun _ => .ok ("at".data, some "nt".data) } []
        "old".data (some "U".data)).2.2 =
      [.tokenExchange "old".data, .persistRotated "nt".data,
       .accessibleResources] ∧
    lookup_user_token { exchangeW := fun _ => .ok ("at".data, some "nt".data) }
      (build_atlassian_rest_tools
        { exchangeW := fun _ => .ok ("at".data, some "nt".data) } []
        "old".data (some "U".data)).2.1 "U".data "atlassian".data =
      some "nt".data := by
  have h := C4_rotation_persists_before_api_calls
    { exchangeW := fun _ => .ok ("at".data, some "nt".data) } [] "old".data
    "U".data "at".data "nt".data rfl
  exact ⟨h.1, h.2.2 "nt".data (by decide) rfl rfl (by decide) rfl rfl rfl⟩

/-! ## Claim C3: one-time, user-bound CSRF nonce -/

theorem noncePk_ne_userPk (n u p : Str) : noncePkOf n ≠ userPk u p := by
  intro h
  have h1 : some 'n' = some 'u' := by
    calc some 'n' = (noncePkOf n).head? := rfl
    _ = (userPk u p).head? := by rw [h]
    _ = some 'u' := rfl
  simp at h1

theorem noncePk_ne_portalPk (n u : Str) : noncePkOf n ≠ portalPkOf u := by
  intro h
  have h1 : some 'n' = some 'p' := by
    calc some 'n' = (noncePkOf n).head? := rfl
    _ = (portalPkOf u).head? := by rw [h]
    _ = some 'p' := rfl
  simp at h1

theorem callback_csrf_absent (env : PortalEnv) (store : Store) (event : Event)
    (code state_b64 : Str) (st : StateData)
    (hcode : event.queryCode = some code)
    (hstate : event.queryState = some state_b64)
    (hc : code ≠ []) (hs : state_b64 ≠ [])
    (hdec : (urlsafeB64decode? (state_b64 ++ "==".data)).bind env.loadsState =
      some st)
    (hfg : env.failGet (noncePkOf st.nonce) = false)
    (habs : sget store (noncePkOf st.nonce) = none) :
    handle_atlassian_callback env store event =
      (.ok ⟨400, .errorPage
        "CSRF validation failed: Invalid or expired nonce".data, none⟩,
       store) := by
  unfold handle_atlassian_callback
  simp only [hcode, hstate]
  rw [if_neg (by simp [hc, hs])]
  simp only [hdec]
  rw [if_neg (by simp [hfg])]
  simp only [habs]

theorem callback_csrf_mismatch (env : PortalEnv) (store : Store) (event : Event)
    (code state_b64 : Str) (st : StateData) (item : Item)
    (hcode : event.queryCode = some code)
    (hstate : event.queryState = some state_b64)
    (hc : code ≠ []) (hs : state_b64 ≠ [])
    (hdec : (urlsafeB64decode? (state_b64 ++ "==".data)).bind env.loadsState =
      some st)
    (hfg : env.failGet (noncePkOf st.nonce) = false)
    (hitem : sget store (noncePkOf st.nonce) = some item)
    (hmis : item.slack_user_id ≠ some st.slack_user_id) :
    handle_atlassian_callback env store event =
      (.ok ⟨400, .errorPage
        "CSRF validation failed: Nonce user mismatch".data, none⟩, store) := by
  unfold handle_atlassian_callback
  simp only [hcode, hstate]
  rw [if_neg (by simp [hc, hs])]
  simp only [hdec]
  rw [if_neg (by simp [hfg])]
  simp only [hitem]
  rw [if_pos hmis]

theorem callback_csrf_pass_nonce_deleted (env : PortalEnv) (store : Store)
    (event : Event) (code state_b64 : Str) (st : StateData) (item : Item)
    (hcode : event.queryCode = some code)
    (hstate : event.queryState = some state_b64)
    (hc : code ≠ []) (hs : state_b64 ≠ [])
    (hdec : (urlsafeB64decode? (state_b64 ++ "==".data)).bind env.loadsState =
      some st)
    (hfg : env.failGet (noncePkOf st.nonce) = false)
    (hitem : sget store (noncePkOf st.nonce) = some item)
    (hmatch : item.slack_user_id = some st.slack_user_id)
    (hfd : env.failDelete (noncePkOf st.nonce) = false) :
    sget (handle_atlassian_callback env store event).2 (noncePkOf st.nonce) =
      none := by
  unfold handle_atlassian_callback
  simp only [hcode, hstate]
  rw [if_neg (by simp [hc, hs])]
  simp only [hdec, hitem]
  rw [if_neg (by simp [hfg]), if_neg (by simp [hmatch]), if_neg (by simp [hfd])]
  repeat' split
  all_goals
    first
    | exact sget_sdelete_self store (noncePkOf st.nonce)
    | (rw [sget_sput_other _ _ _ _
          (noncePk_ne_userPk st.nonce st.slack_user_id "atlassian".data)]
       exact sget_sdelete_self store (noncePkOf st.nonce))
    | (rw [sget_sput_other _ _ _ _
          (noncePk_ne_portalPk st.nonce st.slack_user_id),
        sget_sput_other _ _ _ _
          (noncePk_ne_userPk st.nonce st.slack_user_id "atlassian".data)]
       exact sget_sdelete_self store (noncePkOf st.nonce))

/-- C3: the callback CSRF nonce is one-time and user-bound — with a
well-formed request (`code` and `state` present, the state blob decoding
to `st`) and a working nonce read, (1) a nonce id absent from the store
fails with HTTP 400 and leaves the store unchanged; (2) a stored nonce
bound to a different user id fails with HTTP 400 even though the nonce id
exists; (3) once CSRF validation succeeds the nonce record is gone from
the resulting store whatever the outcome of the later steps (secrets,
code exchange, resource discovery, encryption, stores), so a second
callback presenting the same state fails CSRF validation with HTTP 400. -/
theorem C3_callback_nonce_one_time_user_bound (env : PortalEnv) (store : Store)
    (event : Event) (code state_b64 : Str) (st : StateData)
    (hcode : event.queryCode = some code)
    (hstate : event.queryState = some state_b64)
    (hc : code ≠ []) (hs : state_b64 ≠ [])
    (hdec : (urlsafeB64decode? (state_b64 ++ "==".data)).bind env.loadsState =
      some st)
    (hfg : env.failGet (noncePkOf st.nonce) = false) :
    (sget store (noncePkOf st.nonce) = none →
      handle_atlassian_callback env store event =
        (.ok ⟨400, .errorPage
          "CSRF validation failed: Invalid or expired nonce".data, none⟩,
         store)) ∧
    (∀ item, sget store (noncePkOf st.nonce) = some item →
      item.slack_user_id ≠ some st.slack_user_id →
      handle_atlassian_callback env store event =
        (.ok ⟨400, .errorPage
          "CSRF validation failed: Nonce user mismatch".data, none⟩, store)) ∧
    (∀ item, sget store (noncePkOf st.nonce) = some item →
      item.slack_user_id = some st.slack_user_id →
      env.failDelete (noncePkOf st.nonce) = false →
      sget (handle_atlassian_callback env store event).2 (noncePkOf st.nonce) =
        none ∧
      handle_atlassian_callback env
        (handle_atlassian_callback env store event).2 event =
        (.ok ⟨400, .errorPage
          "CSRF validation failed: Invalid or expired nonce".data, none⟩,
         (handle_atlassian_callback env store event).2)) := by
  refine ⟨fun habs => callback_csrf_absent env store event code state_b64 st
      hcode hstate hc hs hdec hfg habs,
    fun item hitem hmis => callback_csrf_mismatch env store event code
      state_b64 st item hcode hstate hc hs hdec hfg hitem hmis,
    fun item hitem hmatch hfd => ?_⟩
  have hdel := callback_csrf_pass_nonce_deleted env store event code state_b64
    st item hcode hstate hc hs hdec hfg hitem hmatch hfd
  exact ⟨hdel, callback_csrf_absent env _ event code state_b64 st hcode hstate
    hc hs hdec hfg hdel⟩

/-- Concrete instantiation of C3: a callback presenting a nonce id that is
not in the store fails CSRF validation with HTTP 400. -/
theorem C3_witness :
    handle_atlassian_callback { loadsState := toyLoadsState } []
      { queryCode := some "c".data,
        queryState := some (rstripEq (urlsafeB64encode (toyDumpsState
          { slack_user_id := "U".data, nonce := "N".data }))) } =
      (.ok ⟨400, .errorPage
        "CSRF validation failed: Invalid or expired nonce".data, none⟩, []) :=
  (C3_callback_nonce_one_time_user_bound { loadsState := toyLoadsState } []
    { queryCode := some "c".data,
      queryState := some (rstripEq (urlsafeB64encode (toyDumpsState
        { slack_user_id := "U".data, nonce := "N".data }))) }
    "c".data
    (rstripEq (urlsafeB64encode (toyDumpsState
      { slack_user_id := "U".data, nonce := "N".data })))
    { slack_user_id := "U".data, nonce := "N".data }
    rfl rfl (by decide) (by decide) (by decide) rfl).1 rfl

/-! ## Claim C8: authentication status codes on the portal -/

theorem revoke_authed_401_error (env : PortalEnv) (store : Store)
    (event : Event) (token : Str) (secrets : Secrets) (e : JwtError)
    (hsec : env.secretsResult = .ok secrets)
    (hval : validate_jwt env.hmac env.loads secrets.portalSigningSecret env.now
      token = .error e) :
    revoke_authed env store event token =
      (.ok ⟨401, .errorPage ("Authentication failed: ".data ++
        jwtErrorMessage e), none⟩, store) := by
  unfold revoke_authed
  simp only [hsec, hval]

theorem revoke_authed_401_no_subject (env : PortalEnv) (store : Store)
    (event : Event) (token : Str) (secrets : Secrets) (payload : Claims)
    (hsec : env.secretsResult = .ok secrets)
    (hval : validate_jwt env.hmac env.loads secrets.portalSigningSecret env.now
      token = .ok payload)
    (huid : payload.slack_user_id = none ∨ payload.slack_user_id = some []) :
    revoke_authed env store event token =
      (.ok ⟨401, .errorPage
        "Authentication failed: JWT missing slack_user_id".data, none⟩,
       store) := by
  unfold revoke_authed
  simp only [hsec, hval]
  rcases huid with h | h
  · simp [h]
  · simp [h]

/-- C8: authentication status codes — the dashboard returns HTTP 400 with
a rendered error page when no token query parameter is supplied, and
HTTP 401 with a rendered error page when the token fails validation or
carries no subject user id; the revoke handler extracts the token from the
query string, else from the decoded form body, returns HTTP 400 with a
rendered error page when neither supplies one, and hands any extracted
token to `revoke_authed`, which returns HTTP 401 with a rendered error
page on validation failure or missing subject. -/
theorem C8_auth_failure_status_codes (env : PortalEnv) (store : Store)
    (event : Event) :
    ((event.queryToken = none ∨ event.queryToken = some []) →
      handle_dashboard env store event =
        (.ok ⟨400, .errorPage "Missing authentication token".data, none⟩,
         store)) ∧
    (∀ token secrets e, event.queryToken = some token → token ≠ [] →
      env.secretsResult = .ok secrets →
      validate_jwt env.hmac env.loads secrets.portalSigningSecret env.now
        token = .error e →
      handle_dashboard env store event =
        (.ok ⟨401, .errorPage ("Authentication failed: ".data ++
          jwtErrorMessage e), none⟩, store)) ∧
    (∀ token secrets payload, event.queryToken = some token → token ≠ [] →
      env.secretsResult = .ok secrets →
      validate_jwt env.hmac env.loads secrets.portalSigningSecret env.now
        token = .ok payload →
      (payload.slack_user_id = none ∨ payload.slack_user_id = some []) →
      handle_dashboard env store event =
        (.ok ⟨401, .errorPage
          "Authentication failed: JWT missing slack_user_id".data, none⟩,
         store)) ∧
    ((event.queryToken = none ∨ event.queryToken = some []) →
      ∀ body, revoke_body_decoded event = .ok body →
      (body = [] ∨ parse_qs_token body = none) →
      handle_atlassian_revoke env store event =
        (.ok ⟨400, .errorPage "Missing authentication token".data, none⟩,
         store)) ∧
    (∀ token, event.queryToken = some token → token ≠ [] →
      handle_atlassian_revoke env store event =
        revoke_authed env store event token) ∧
    ((event.queryToken = none ∨ event.queryToken = some []) →
      ∀ body token, revoke_body_decoded event = .ok body → body ≠ [] →
      parse_qs_token body = some token →
      handle_atlassian_revoke env store event =
        revoke_authed env store event token) ∧
    (∀ token secrets e, env.secretsResult = .ok secrets →
      validate_jwt env.hmac env.loads secrets.portalSigningSecret env.now
        token = .error e →
      revoke_authed env store event token =
        (.ok ⟨401, .errorPage ("Authentication failed: ".data ++
          jwtErrorMessage e), none⟩, store)) ∧
    (∀ token secrets payload, env.secretsResult = .ok secrets →
      validate_jwt env.hmac env.loads secrets.portalSigningSecret env.now
        token = .ok payload →
      (payload.slack_user_id = none ∨ payload.slack_user_id = some []) →
      revoke_authed env store event token =
        (.ok ⟨401, .errorPage
          "Authentication failed: JWT missing slack_user_id".data, none⟩,
         store)) := by
  refine ⟨?_, ?_, ?_, ?_, ?_, ?_,
    fun token secrets e hsec hval =>
      revoke_authed_401_error env store event token secrets e hsec hval,
    fun token secrets payload hsec hval huid =>
      revoke_authed_401_no_subject env store event token secrets payload hsec
        hval huid⟩
  · intro h
    unfold handle_dashboard
    rcases h with h | h
    · simp only [h]
    · simp [h]
  · intro token secrets e htok hne hsec hval
    unfold handle_dashboard
    simp only [htok]
    rw [if_neg hne]
    simp only [hsec, hval]
  · intro token secrets payload htok hne hsec hval huid
    unfold handle_dashboard
    simp only [htok]
    rw [if_neg hne]
    simp only [hsec, hval]
    rcases huid with h | h
    · simp [h]
    · simp [h]
  · intro hq body hbody hnone
    unfold handle_atlassian_revoke
    rcases hq with h | h
    · simp only [h, hbody]
      rcases hnone with h2 | h2
      · simp [h2]
      · simp [h2]
    · simp only [h, hbody]
      rcases hnone with h2 | h2
      · simp [h2]
      · simp [h2]
  · intro token htok hne
    unfold handle_atlassian_revoke
    simp only [htok]
    rw [if_neg hne]
  · intro hq body token hbody hbne hparse
    unfold handle_atlassian_revoke
    rcases hq with h | h
    · simp only [h, hbody]
      rw [if_neg hbne]
      simp only [hparse]
    · simp only [h, hbody]
      rw [if_neg hbne]
      simp only [hparse]
      simp

/-- Concrete instantiation of C8: a dashboard request with no token query
parameter yields HTTP 400 with the rendered missing-token error page. -/
theorem C8_witness :
    handle_dashboard {} [] {} =
      (.ok ⟨400, .errorPage "Missing authentication token".data, none⟩, []) :=
  (C8_auth_failure_status_codes {} [] {}).1 (Or.inl rfl)

/-! ## Claim C9: top-level totality of the portal -/

/-- C9 counterexample: the 500 page body includes the escaped exception's
message rather than a fixed generic message — two runs that differ only in
the secrets-fetch failure detail produce different 500 bodies, so the
exception detail is included in the body. -/
theorem C9_counterexample :
    (lambda_handler { secretsResult := .error "A".data } []
        { queryToken := some "t".data }).1 ≠
      (lambda_handler { secretsResult := .error "B".data } []
        { queryToken := some "t".data }).1 ∧
    (lambda_handler { secretsResult := .error "A".data } []
        { queryToken := some "t".data }).1.statusCode = 500 ∧
    (lambda_handler { secretsResult := .error "A".data } []
        { queryToken := some "t".data }).1.body =
      .errorPage ("Internal server error: Failed to fetch secrets: A".data) := by
  refine ⟨by decide, by decide, by decide⟩

/-- C9 (amended): `lambda_handler` is total — it always produces a
response dict: an unrecognized path/method combination yields a 404
rendered error page, and an exception escaping any route handler is
converted into a 500 response whose body is a rendered error page that
interpolates the exception message `str(e)` (the full traceback is only
logged server-side); no exception escapes the handler. -/
theorem C9_lambda_handler_total (env : PortalEnv) (store : Store)
    (event : Event) :
    (¬ ((event.rawPath = "/".data ∧ event.method = "GET".data) ∨
        (event.rawPath = "/callback/atlassian".data ∧
          event.method = "GET".data) ∨
        (event.rawPath = "/revoke/atlassian".data ∧
          event.method = "POST".data)) →
      lambda_handler env store event =
        (⟨404, .errorPage ("Route not found: ".data ++ event.method ++
          " ".data ++ event.rawPath), none⟩, store)) ∧
    (∀ ex st1, event.rawPath = "/".data → event.method = "GET".data →
      handle_dashboard env store event = (.error ex, st1) →
      lambda_handler env store event =
        (⟨500, .errorPage ("Internal server error: ".data ++ pyExnMessage ex),
          none⟩, st1)) ∧
    (∀ ex st1, event.rawPath = "/callback/atlassian".data →
      event.method = "GET".data →
      handle_atlassian_callback env store event = (.error ex, st1) →
      lambda_handler env store event =
        (⟨500, .errorPage ("Internal server error: ".data ++ pyExnMessage ex),
          none⟩, st1)) ∧
    (∀ ex st1, event.rawPath = "/revoke/atlassian".data →
      event.method = "POST".data →
      handle_atlassian_revoke env store event = (.error ex, st1) →
      lambda_handler env store event =
        (⟨500, .errorPage ("Internal server error: ".data ++ pyExnMessage ex),
          none⟩, st1)) := by
  refine ⟨?_, ?_, ?_, ?_⟩
  · intro hno
    unfold lambda_handler
    rw [if_neg (fun hA => hno (Or.inl hA)),
      if_neg (fun hB => hno (Or.inr (Or.inl hB))),
      if_neg (fun hC => hno (Or.inr (Or.inr hC)))]
  · intro ex st1 hp hm hd
    unfold lambda_handler
    rw [if_pos ⟨hp, hm⟩]
    simp only [hd]
  · intro ex st1 hp hm hd
    unfold lambda_handler
    rw [if_neg (by rintro ⟨h1, -⟩; rw [hp] at h1; exact absurd h1 (by decide)),
      if_pos ⟨hp, hm⟩]
    simp only [hd]
  · intro ex st1 hp hm hd
    unfold lambda_handler
    rw [if_neg (by rintro ⟨h1, -⟩; rw [hp] at h1; exact absurd h1 (by decide)),
      if_neg (by rintro ⟨h1, -⟩; rw [hp] at h1; exact absurd h1 (by decide)),
      if_pos ⟨hp, hm⟩]
    simp only [hd]

/-- Concrete instantiation of the amended C9: an unknown path yields the
404 rendered error page. -/
theorem C9_amended_witness :
    lambda_handler {} [] { rawPath := "/x".data } =
      (⟨404, .errorPage ("Route not found: ".data ++ "GET".data ++ " ".data ++
        "/x".data), none⟩, []) :=
  (C9_lambda_handler_total {} [] { rawPath := "/x".data }).1 (by decide)
